import Mathlib

set_option linter.unusedVariables false

/-!
Shallow embedding of the Microsoft Defender for Endpoints product adapter
(`products/microsoft_defender_for_endpoints.py`) of the surveyor repository.

The adapter translates abstract search criteria and base filters into
Kusto-style advanced-query strings, hands each finalized query to
`process_search`, and forwards results to the result sink `_add_results`.
All observable behaviour (warnings echoed, queries finalized, queries
submitted to the HTTP endpoint, sink invocations) is recorded in an event
trace.  Python dicts are modelled as association lists in insertion order;
interpolated filter values are taken in their rendered string form.
-/

namespace DFE

/-- A row of `PARAMETER_MAPPING`: backing table, match column, optional
extra query fragment (`additional`) and projected output columns. -/
structure FieldMapping where
  table : String
  field : String
  additional : Option String
  projections : List String
deriving DecidableEq, Repr

/-- Modelled from the spec: `Result` lives in `common.py`, which is not part
of the sources here.  Per the spec it is a normalized tuple {device/host
identifier, account identifier, command line, file/folder path, extra
columns} whose identity for de-duplication is the full tuple (structural
equality). -/
structure Result where
  hostname : String
  username : String
  commandLine : String
  path : String
  other : List String
deriving DecidableEq, Repr

/-- One row of the JSON `Results` array of an advanced-query response,
with the columns `_post_advanced_query` reads. -/
structure Row where
  DeviceName : String
  AccountName : String
  ProcessCommandLine : String
  FolderPath : String
  Timestamp : String
deriving DecidableEq, Repr

/-- A value of the criteria dict: either a list of strings or a single
string (Python distinguishes these with `isinstance(terms, list)`). -/
inductive CriteriaValue where
  | strings (ts : List String)
  | single (s : String)
deriving DecidableEq, Repr

/-- Observable events of the adapter: `echo` for `self._echo` diagnostics,
`builtQuery` for the finalized query computed (and debug-logged) by
`process_search`, `submittedQuery` for a call to `_post_advanced_query`
(the dispatch in `process_search` is commented out in the source, so the
embedded code never emits this event), and `addResults` for a call to the
result sink `_add_results`. -/
inductive Event where
  | echo (msg : String)
  | builtQuery (query : String)
  | submittedQuery (query : String)
  | addResults (tagName : String) (results : List Result)
deriving DecidableEq, Repr

/-- Base filters / criteria dicts as association lists (Python dicts
iterate in insertion order). -/
abbrev Filters := List (String × String)

/-- `PARAMETER_MAPPING` from the source, in declaration order. -/
def PARAMETER_MAPPING : List (String × FieldMapping) :=
  [ ("process_name",
      ⟨"DeviceProcessEvents", "FolderPath", none,
        ["DeviceName", "AccountName", "FolderPath", "ProcessCommandLine"]⟩),
    ("filemod",
      ⟨"DeviceFileEvents", "FolderPath", none,
        ["DeviceName", "InitiatingProcessAccountName", "InitatingProcessFolderPath", "ProcessCommandLine"]⟩),
    ("ipaddr",
      ⟨"DeviceNetworkEvents", "RemoteIP", none,
        ["DeviceName", "InitiatingProcessAccountName", "InitatingProcessFolderPath", "ProcessCommandLine"]⟩),
    ("cmdline",
      ⟨"DeviceProcessEvents", "ProcessCommandLine", none,
        ["DeviceName", "AccountName", "FolderPath", "ProcessCommandLine"]⟩),
    ("digsig_publisher",
      ⟨"DeviceFileCertificateInfo", "Signer",
        some "| join kind=inner DeviceProcessEvents on $left.SHA1 == $right.SHA1",
        ["DeviceName", "AccountName", "FolderPath", "ProcessCommandLine"]⟩),
    ("domain",
      ⟨"DeviceNetworkEvents", "RemoteUrl", none,
        ["DeviceName", "InitiatingProcessAccountName", "InitatingProcessFolderPath", "ProcessCommandLine"]⟩),
    ("internal_name",
      ⟨"DeviceProcessEvents", "ProcessVersionInfoInternalFileName", none,
        ["DeviceName", "AccountName", "FolderPath", "ProcessCommandLine"]⟩),
    ("md5",
      ⟨"DeviceProcessEvents", "MD5", none,
        ["DeviceName", "AccountName", "FolderPath", "ProcessCommandLine"]⟩),
    ("sha1",
      ⟨"DeviceProcessEvents", "SHA1", none,
        ["DeviceName", "AccountName", "FolderPath", "ProcessCommandLine"]⟩),
    ("sha256",
      ⟨"DeviceProcessEvents", "SHA256", none,
        ["DeviceName", "AccountName", "FolderPath", "ProcessCommandLine"]⟩) ]

/-- `search_field in PARAMETER_MAPPING` / `PARAMETER_MAPPING[search_field]`. -/
def lookupMapping (key : String) : Option FieldMapping :=
  (PARAMETER_MAPPING.find? (fun p => p.1 == key)).map (fun p => p.2)

/-- Python `str.rstrip()`: drop trailing whitespace characters. -/
def rstrip (s : String) : String :=
  String.mk ((s.data.reverse.dropWhile Char.isWhitespace).reverse)

/-- The warning text echoed for an unsupported filter key or search field
(product name `dfe`); used verbatim at lines 145 and 174 of the source. -/
def unsupportedFilterMsg (key : String) : String :=
  "Query filter " ++ key ++ " is not supported by product dfe"

/-- `build_query` (lines 161-176): returns the built base clause together
with the list of warnings echoed for unrecognized keys, processing the
filters in iteration order. -/
def build_query : Filters → String × List String
  | [] => ("", [])
  | (key, value) :: rest =>
    let r := build_query rest
    if key == "days" then
      ("| where Timestamp > ago(" ++ value ++ "d)" ++ r.1, r.2)
    else if key == "minutes" then
      ("| where Timestamp > ago(" ++ value ++ "m)" ++ r.1, r.2)
    else if key == "hostname" then
      ("| where DeviceName contains \"" ++ value ++ "\"" ++ r.1, r.2)
    else if key == "username" then
      ("| where AccountName contains \"" ++ value ++ "\"" ++ r.1, r.2)
    else
      (r.1, unsupportedFilterMsg key :: r.2)

/-- Python `', '.join`. -/
def commaJoin : List String → String
  | [] => ""
  | [x] => x
  | x :: xs => x ++ ", " ++ commaJoin xs

/-- `', '.join(f"'{term}'" for term in terms)` (line 141). -/
def quoteJoin (terms : List String) : String :=
  commaJoin (terms.map (fun term => "'" ++ term ++ "'"))

/-- `process_search` (lines 115-124): appends the base clause built from
`base_query`, strips trailing whitespace, and debug-logs the finalized
query (recorded as `builtQuery`).  The dispatch to `_post_advanced_query`
and the `_add_results` call are commented out in the source (lines
123-124), so no `submittedQuery` or `addResults` event is produced. -/
def process_search (tag : String) (base_query : Filters) (query : String) : List Event :=
  let bq := build_query base_query
  let query := rstrip (query ++ bq.1)
  (bq.2.map Event.echo) ++ [Event.builtQuery query]

/-- The query built for a mapped search field (lines 143, 149, 151, 153):
`<table> | where <field> has_any (<all_terms>) <additional?> <query_base>
| project <projections>`. -/
def buildNestedQuery (pm : FieldMapping) (all_terms : String) (query_base : String) : String :=
  let query := "| where " ++ pm.field ++ " has_any (" ++ all_terms ++ ")"
  let query := pm.table ++ " " ++ query ++ " "
  let query := query ++ (match pm.additional with | some a => a | none => "")
  query ++ " " ++ query_base ++ " | project " ++ commaJoin pm.projections

/-- One iteration of the criteria loop of `nested_process_search`
(lines 132-155). -/
def processEntry (tag : String) (query_base : String) (base_query : Filters)
    (search_field : String) (terms : CriteriaValue) : List Event :=
  if search_field == "query" then
    match terms with
    | .strings ts =>
        (ts.map (fun query_entry => process_search tag [] (query_entry ++ query_base))).flatten
    | .single s => process_search tag base_query s
  else
    let all_terms := quoteJoin (match terms with
      | .strings ts => ts
      | .single s => s.data.map (fun c => String.mk [c]))
    match lookupMapping search_field with
    | some pm => process_search tag [] (buildNestedQuery pm all_terms query_base)
    | none => [Event.echo (unsupportedFilterMsg search_field)]

/-- The criteria loop wrapped in `try ... except KeyboardInterrupt`
(lines 131-157).  `interruptAt = some k` models a KeyboardInterrupt
arriving at the start of loop iteration `k`; `none` models an
uninterrupted run.  The interrupt is caught and echoes
"Caught CTRL-C. Returning what we have...". -/
def searchLoop (tag : String) (query_base : String) (base_query : Filters) :
    Option Nat → List (String × CriteriaValue) → List Event
  | _, [] => []
  | some 0, _ :: _ => [Event.echo "Caught CTRL-C. Returning what we have..."]
  | some (k + 1), (f, v) :: rest =>
      processEntry tag query_base base_query f v ++ searchLoop tag query_base base_query (some k) rest
  | none, (f, v) :: rest =>
      processEntry tag query_base base_query f v ++ searchLoop tag query_base base_query none rest

/-- `nested_process_search` (lines 126-159): builds the base clause once,
runs the criteria loop (catching KeyboardInterrupt), then always calls
`_add_results(list(results), tag)`.  The local `results` set is declared
at line 127 and never added to, so the sink always receives the empty
list. -/
def nested_process_search (tag : String) (criteria : List (String × CriteriaValue))
    (base_query : Filters) (interruptAt : Option Nat) : List Event :=
  let results : List Result := []
  let bq := build_query base_query
  (bq.2.map Event.echo)
    ++ searchLoop tag bq.1 base_query interruptAt criteria
    ++ [Event.addResults tag results]

/-- `Result(res["DeviceName"], res["AccountName"], res["ProcessCommandLine"],
res["FolderPath"], (res["Timestamp"],))` (lines 95-96). -/
def rowResult (res : Row) : Result :=
  ⟨res.DeviceName, res.AccountName, res.ProcessCommandLine, res.FolderPath, [res.Timestamp]⟩

/-- `results.add(result)`: the Python `set` is modelled as an
insertion-ordered duplicate-free list. -/
def addResult (results : List Result) (r : Result) : List Result :=
  if r ∈ results then results else results ++ [r]

/-- The row loop of `_post_advanced_query` (lines 94-97) with the
KeyboardInterrupt handler (lines 100-101): `interruptAt = some k` models
CTRL-C arriving at the start of row iteration `k`; the handler echoes and
the function returns the results accumulated so far. -/
def collectResults : List Result → Option Nat → List Row → List Result × List String
  | acc, _, [] => (acc, [])
  | acc, some 0, _ :: _ => (acc, ["Caught CTRL-C. Rerun surveyor"])
  | acc, some (k + 1), res :: rest => collectResults (addResult acc (rowResult res)) (some k) rest
  | acc, none, res :: rest => collectResults (addResult acc (rowResult res)) none rest

/-- `_post_advanced_query` (lines 85-106): on HTTP 200 parse and
de-duplicate the rows; otherwise echo the status code and response body
and return the (empty) result list.  Returns the result list together
with the echoed diagnostics. -/
def post_advanced_query (status : Nat) (body : String) (rows : List Row)
    (interruptAt : Option Nat) : List Result × List String :=
  if status == 200 then
    collectResults [] interruptAt rows
  else
    ([], ["Received status code: " ++ toString status ++ " (message: " ++ body ++ ")"])

/-- A parsed credential file: profile name to list of option key/value
pairs, as read by `configparser`. -/
abbrev CredsConfig := List (String × List (String × String))

/-- `key in section` for a configparser section. -/
def hasOption (sec : List (String × String)) (key : String) : Bool :=
  ((sec.find? (fun kv => kv.1 == key)).isSome)

/-- `_authenticate` (lines 50-63): ValueError if the profile is missing
from the credential file or lacks any of tenantId, appId, appSecret.
(The `_get_aad_token` call at line 63 is commented out in the source.) -/
def _authenticate (profile : String) (config : CredsConfig) : Except String Unit :=
  match config.find? (fun p => p.1 == profile) with
  | none => .error ("Profile " ++ profile ++ " is not present in credential file")
  | some sec =>
    if !hasOption sec.2 "tenantId" || !hasOption sec.2 "appId" || !hasOption sec.2 "appSecret" then
      .error "Credential file must contain tenantId, appId, and appSecret values"
    else
      .ok ()

/-- `__init__` (lines 42-48): ValueError if the credential file does not
exist.  Modelled from the spec: `Product.__init__` (in `common.py`, not
among the sources) authenticates during construction, so construction
continues into `_authenticate`. -/
def dfe_init (credsFileExists : Bool) (credsFile : String) (profile : String)
    (config : CredsConfig) : Except String Unit :=
  if !credsFileExists then
    .error ("Credential file " ++ credsFile ++ " does not exist")
  else
    _authenticate profile config

/-- The finalized queries debug-logged by `process_search`. -/
def builtQueries (evs : List Event) : List String :=
  evs.filterMap (fun e => match e with | .builtQuery q => some q | _ => none)

/-- The queries actually submitted to `_post_advanced_query`. -/
def submittedQueries (evs : List Event) : List String :=
  evs.filterMap (fun e => match e with | .submittedQuery q => some q | _ => none)

/-- All `self._echo` diagnostics, in order. -/
def echoes (evs : List Event) : List String :=
  evs.filterMap (fun e => match e with | .echo m => some m | _ => none)

/-- All `_add_results` sink invocations, in order. -/
def sinkCalls (evs : List Event) : List (String × List Result) :=
  evs.filterMap (fun e => match e with | .addResults t rs => some (t, rs) | _ => none)

/-! ### Helper lemmas about the event extractors -/

lemma submittedQueries_append (a b : List Event) :
    submittedQueries (a ++ b) = submittedQueries a ++ submittedQueries b :=
  List.filterMap_append a b _

lemma sinkCalls_append (a b : List Event) :
    sinkCalls (a ++ b) = sinkCalls a ++ sinkCalls b :=
  List.filterMap_append a b _

lemma builtQueries_append (a b : List Event) :
    builtQueries (a ++ b) = builtQueries a ++ builtQueries b :=
  List.filterMap_append a b _

lemma echoes_append (a b : List Event) :
    echoes (a ++ b) = echoes a ++ echoes b :=
  List.filterMap_append a b _

lemma submittedQueries_echoList (ms : List String) :
    submittedQueries (ms.map Event.echo) = [] := by
  simp [submittedQueries, List.filterMap_map, Function.comp_def]

lemma sinkCalls_echoList (ms : List String) :
    sinkCalls (ms.map Event.echo) = [] := by
  simp [sinkCalls, List.filterMap_map, Function.comp_def]

lemma submittedQueries_process_search (tag : String) (bq : Filters) (q : String) :
    submittedQueries (process_search tag bq q) = [] := by
  simp [process_search, submittedQueries_append, submittedQueries_echoList, submittedQueries]

lemma sinkCalls_process_search (tag : String) (bq : Filters) (q : String) :
    sinkCalls (process_search tag bq q) = [] := by
  simp [process_search, sinkCalls_append, sinkCalls_echoList, sinkCalls]

lemma submittedQueries_processEntry (tag qb : String) (bq : Filters) (f : String)
    (v : CriteriaValue) : submittedQueries (processEntry tag qb bq f v) = [] := by
  unfold processEntry
  split
  · cases v with
    | strings ts =>
        induction ts with
        | nil => rfl
        | cons t rest ih =>
            simp only [List.map_cons, List.flatten_cons, submittedQueries_append,
              submittedQueries_process_search, List.nil_append]
            simpa using ih
    | single s => exact submittedQueries_process_search ..
  · cases h : lookupMapping f with
    | none => simp [h, submittedQueries]
    | some pm => simp [h, submittedQueries_process_search]

lemma sinkCalls_processEntry (tag qb : String) (bq : Filters) (f : String)
    (v : CriteriaValue) : sinkCalls (processEntry tag qb bq f v) = [] := by
  unfold processEntry
  split
  · cases v with
    | strings ts =>
        induction ts with
        | nil => rfl
        | cons t rest ih =>
            simp only [List.map_cons, List.flatten_cons, sinkCalls_append,
              sinkCalls_process_search, List.nil_append]
            simpa using ih
    | single s => exact sinkCalls_process_search ..
  · cases h : lookupMapping f with
    | none => simp [h, sinkCalls]
    | some pm => simp [h, sinkCalls_process_search]

lemma submittedQueries_searchLoop (tag qb : String) (bq : Filters) :
    ∀ (intr : Option Nat) (criteria : List (String × CriteriaValue)),
      submittedQueries (searchLoop tag qb bq intr criteria) = [] := by
  intro intr criteria
  induction criteria generalizing intr with
  | nil => simp [searchLoop, submittedQueries]
  | cons e rest ih =>
      obtain ⟨f, v⟩ := e
      match intr with
      | none =>
          rw [searchLoop, submittedQueries_append, submittedQueries_processEntry, ih none]
          rfl
      | some 0 => simp [searchLoop, submittedQueries]
      | some (k + 1) =>
          rw [searchLoop, submittedQueries_append, submittedQueries_processEntry, ih (some k)]
          rfl

lemma sinkCalls_searchLoop (tag qb : String) (bq : Filters) :
    ∀ (intr : Option Nat) (criteria : List (String × CriteriaValue)),
      sinkCalls (searchLoop tag qb bq intr criteria) = [] := by
  intro intr criteria
  induction criteria generalizing intr with
  | nil => simp [searchLoop, sinkCalls]
  | cons e rest ih =>
      obtain ⟨f, v⟩ := e
      match intr with
      | none =>
          rw [searchLoop, sinkCalls_append, sinkCalls_processEntry, ih none]
          rfl
      | some 0 => simp [searchLoop, sinkCalls]
      | some (k + 1) =>
          rw [searchLoop, sinkCalls_append, sinkCalls_processEntry, ih (some k)]
          rfl

/-! ### Claim theorems -/

/-- C10: for every tag, criteria mapping, base-filter mapping (and any
interrupt schedule), `nested_process_search` invokes the result sink
`_add_results` exactly once, with the empty result list, and no query is
ever submitted to `_post_advanced_query` — the local `results` set is
never added to and the dispatch in `process_search` is commented out. -/
theorem nested_process_search_sink_always_empty (tag : String)
    (criteria : List (String × CriteriaValue)) (base_query : Filters)
    (intr : Option Nat) :
    sinkCalls (nested_process_search tag criteria base_query intr) = [(tag, [])]
    ∧ submittedQueries (nested_process_search tag criteria base_query intr) = [] := by
  have h : nested_process_search tag criteria base_query intr
      = ((build_query base_query).2.map Event.echo)
        ++ searchLoop tag (build_query base_query).1 base_query intr criteria
        ++ [Event.addResults tag []] := rfl
  constructor
  · rw [h, sinkCalls_append, sinkCalls_append, sinkCalls_echoList, sinkCalls_searchLoop]
    rfl
  · rw [h, submittedQueries_append, submittedQueries_append, submittedQueries_echoList,
      submittedQueries_searchLoop]
    rfl

/-- C1: evaluating the code at the claim's input (criteria
`{"process_name": ["evil.exe"]}`, base filters `{"days": 7, "hostname":
"WIN10"}`): exactly one query string is built and finalized by
`process_search`, equal to the text the claim expects, but it is never
submitted — the dispatch to `_post_advanced_query` at source lines
123-124 is commented out. -/
theorem scenario_process_name_built_not_submitted :
    builtQueries (nested_process_search "tag"
        [("process_name", .strings ["evil.exe"])]
        [("days", "7"), ("hostname", "WIN10")] none)
      = ["DeviceProcessEvents | where FolderPath has_any ('evil.exe')  | where Timestamp > ago(7d)| where DeviceName contains \"WIN10\" | project DeviceName, AccountName, FolderPath, ProcessCommandLine"]
    ∧ submittedQueries (nested_process_search "tag"
        [("process_name", .strings ["evil.exe"])]
        [("days", "7"), ("hostname", "WIN10")] none) = [] :=
  ⟨rfl, rfl⟩

/-- C5: evaluating the code at the claim's input (criteria
`{"query": ["DeviceEvents | where ActionType == 'AntivirusDetection'"]}`,
empty base filters): exactly one query string is finalized, equal to the
raw query string unchanged (the appended base clause is empty), but it is
never submitted — the dispatch in `process_search` is commented out. -/
theorem scenario_raw_query_built_not_submitted :
    builtQueries (nested_process_search "tag"
        [("query", .strings ["DeviceEvents | where ActionType == 'AntivirusDetection'"])]
        [] none)
      = ["DeviceEvents | where ActionType == 'AntivirusDetection'"]
    ∧ submittedQueries (nested_process_search "tag"
        [("query", .strings ["DeviceEvents | where ActionType == 'AntivirusDetection'"])]
        [] none) = [] :=
  ⟨rfl, rfl⟩

/-- C3: a criteria entry whose search field is absent from
`PARAMETER_MAPPING` (and is not the reserved `query` key) contributes
exactly one warning echo, no query, and the loop continues with the
remaining entries; for criteria `{"bogus_field": ["x"]}` no query is
built or submitted, exactly one warning is reported, and the sink is
still invoked once with the empty result list. -/
theorem unmapped_field_skipped (tag qb : String) (bq : Filters) (f : String)
    (v : CriteriaValue) (rest : List (String × CriteriaValue))
    (hq : f ≠ "query") (hmap : lookupMapping f = none) :
    searchLoop tag qb bq none ((f, v) :: rest)
      = Event.echo (unsupportedFilterMsg f) :: searchLoop tag qb bq none rest
    ∧ builtQueries (nested_process_search "tag" [("bogus_field", .strings ["x"])] [] none) = []
    ∧ submittedQueries (nested_process_search "tag" [("bogus_field", .strings ["x"])] [] none) = []
    ∧ echoes (nested_process_search "tag" [("bogus_field", .strings ["x"])] [] none)
        = ["Query filter bogus_field is not supported by product dfe"]
    ∧ sinkCalls (nested_process_search "tag" [("bogus_field", .strings ["x"])] [] none)
        = [("tag", [])] := by
  refine ⟨?_, rfl, rfl, rfl, rfl⟩
  rw [searchLoop]
  simp [processEntry, hq, hmap]

/-- Witness for C3 at the claim's concrete input. -/
theorem unmapped_field_skipped_witness :
    searchLoop "tag" "" [] none [("bogus_field", CriteriaValue.strings ["x"])]
      = Event.echo (unsupportedFilterMsg "bogus_field") :: searchLoop "tag" "" [] none [] :=
  (unmapped_field_skipped "tag" "" [] "bogus_field" (CriteriaValue.strings ["x"]) []
    (by decide) (by rfl)).1

/-- Modelled from the spec's words (claim C2): the clause a single
recognized base-filter key contributes, `none` for an unrecognized key.
Kept separate from `build_query` so the two can be compared. -/
def specBaseClause (key value : String) : Option String :=
  if key == "days" then some ("| where Timestamp > ago(" ++ value ++ "d)")
  else if key == "minutes" then some ("| where Timestamp > ago(" ++ value ++ "m)")
  else if key == "hostname" then some ("| where DeviceName contains \"" ++ value ++ "\"")
  else if key == "username" then some ("| where AccountName contains \"" ++ value ++ "\"")
  else none

/-- Concatenation of a list of strings in order. -/
def concatAll : List String → String
  | [] => ""
  | x :: xs => x ++ concatAll xs

/-- C2: for every base-filter mapping, the clause built by `build_query`
is the concatenation, in iteration order, of exactly one key-specific
clause per recognized key; every unrecognized key contributes no clause
and exactly one warning; the empty filter mapping yields the empty
string. -/
theorem build_query_matches_spec (filters : Filters) :
    (build_query filters).1
      = concatAll (filters.filterMap (fun kv => specBaseClause kv.1 kv.2))
    ∧ (build_query filters).2
      = (filters.filter (fun kv => (specBaseClause kv.1 kv.2).isNone)).map
          (fun kv => unsupportedFilterMsg kv.1)
    ∧ (build_query ([] : Filters)).1 = "" := by
  refine ⟨?_, ?_, rfl⟩ <;>
  · induction filters with
    | nil => rfl
    | cons kv rest ih =>
        obtain ⟨key, value⟩ := kv
        by_cases h1 : key = "days"
        · simp [build_query, specBaseClause, h1, concatAll, ih]
        · by_cases h2 : key = "minutes"
          · simp [build_query, specBaseClause, h1, h2, concatAll, ih]
          · by_cases h3 : key = "hostname"
            · simp [build_query, specBaseClause, h1, h2, h3, concatAll, ih]
            · by_cases h4 : key = "username"
              · simp [build_query, specBaseClause, h1, h2, h3, h4, concatAll, ih]
              · simp [build_query, specBaseClause, h1, h2, h3, h4, concatAll, ih]

/-- C6: for every response whose HTTP status is not 200,
`_post_advanced_query` returns the empty result list and echoes a
diagnostic carrying the status code and response body (it never
raises — the embedded function is total). -/
theorem post_advanced_query_non_success (status : Nat) (body : String)
    (rows : List Row) (intr : Option Nat) (h : status ≠ 200) :
    post_advanced_query status body rows intr
      = ([], ["Received status code: " ++ toString status ++ " (message: " ++ body ++ ")"]) := by
  simp [post_advanced_query, h]

/-- Witness for C6: an HTTP 500 response yields no results and the
diagnostic carrying the status code. -/
theorem post_advanced_query_non_success_witness :
    post_advanced_query 500 "server error" [] none
      = ([], ["Received status code: " ++ toString 500 ++ " (message: " ++ "server error" ++ ")"]) :=
  post_advanced_query_non_success 500 "server error" [] none (by decide)

lemma addResult_nodup {acc : List Result} (h : acc.Nodup) (r : Result) :
    (addResult acc r).Nodup := by
  unfold addResult
  split
  · exact h
  · rename_i hmem
    rw [← List.concat_eq_append]
    exact List.Nodup.concat hmem h

lemma mem_addResult (x : Result) (acc : List Result) (r : Result) :
    x ∈ addResult acc r ↔ x ∈ acc ∨ x = r := by
  unfold addResult
  split
  · rename_i hmem
    constructor
    · exact Or.inl
    · rintro (hx | rfl)
      · exact hx
      · exact hmem
  · simp

lemma collectResults_none_spec (rows : List Row) :
    ∀ acc : List Result, acc.Nodup →
      (collectResults acc none rows).1.Nodup
      ∧ ∀ r, r ∈ (collectResults acc none rows).1 ↔ r ∈ acc ∨ r ∈ rows.map rowResult := by
  induction rows with
  | nil =>
      intro acc hacc
      exact ⟨hacc, by simp [collectResults]⟩
  | cons row rest ih =>
      intro acc hacc
      have h := ih (addResult acc (rowResult row)) (addResult_nodup hacc _)
      refine ⟨by simpa [collectResults] using h.1, ?_⟩
      intro r
      rw [collectResults, h.2 r, mem_addResult]
      simp only [List.map_cons, List.mem_cons]
      constructor
      · rintro ((hx | rfl) | hx)
        · exact Or.inl hx
        · exact Or.inr (Or.inl rfl)
        · exact Or.inr (Or.inr hx)
      · rintro (hx | rfl | hx)
        · exact Or.inl (Or.inl hx)
        · exact Or.inl (Or.inr rfl)
        · exact Or.inr hx

/-- C7: on a successful (HTTP 200) uninterrupted response, the result
list of `_post_advanced_query` holds a single `Result` per distinct full
tuple: it is duplicate-free, and a tuple is in it exactly when some
response row parses to it — duplicate rows collapse because results
accumulate into a set before being returned as a list. -/
theorem post_advanced_query_dedups (body : String) (rows : List Row) :
    (post_advanced_query 200 body rows none).1.Nodup
    ∧ ∀ r, r ∈ (post_advanced_query 200 body rows none).1 ↔ r ∈ rows.map rowResult := by
  have h := collectResults_none_spec rows [] (by simp)
  have heq : post_advanced_query 200 body rows none = collectResults [] none rows := by
    simp [post_advanced_query]
  rw [heq]
  refine ⟨h.1, fun r => ?_⟩
  rw [h.2 r]
  simp

lemma commaJoin_mem : ∀ (xs : List String) (x : String), x ∈ xs →
    ∃ p s, commaJoin xs = p ++ (x ++ s)
  | [], _, hx => by simp at hx
  | [y], x, hx => by
      rw [List.mem_singleton] at hx
      subst hx
      exact ⟨"", "", by simp [commaJoin]⟩
  | y :: z :: rest, x, hx => by
      rcases List.mem_cons.mp hx with rfl | hx'
      · exact ⟨"", ", " ++ commaJoin (z :: rest), by simp [commaJoin, String.append_assoc]⟩
      · obtain ⟨p, s, hp⟩ := commaJoin_mem (z :: rest) x hx'
        exact ⟨y ++ ", " ++ p, s, by simp [commaJoin, hp, String.append_assoc]⟩

lemma buildNestedQuery_decomp (pm : FieldMapping) (all_terms qb : String) :
    buildNestedQuery pm all_terms qb
      = (pm.table ++ " " ++ "| where " ++ pm.field ++ " has_any (")
        ++ (all_terms
            ++ (")" ++ " "
                ++ (match pm.additional with | some a => a | none => "")
                ++ " " ++ qb ++ " | project " ++ commaJoin pm.projections)) := by
  unfold buildNestedQuery
  simp only [String.append_assoc]

/-- C4: for a mapped search field and a non-empty term list, the loop
hands `process_search` exactly the query built by `buildNestedQuery`;
that query contains the full membership list (every term single-quoted,
joined by `, `), contains each individual term single-quoted, and ends
with `| project` followed by exactly the mapped field's projected columns
in their declared order. -/
theorem mapped_field_query_shape (tag qb : String) (bq : Filters) (f : String)
    (pm : FieldMapping) (terms : List String)
    (hm : lookupMapping f = some pm) (hq : f ≠ "query") (hne : terms ≠ []) :
    processEntry tag qb bq f (CriteriaValue.strings terms)
        = process_search tag [] (buildNestedQuery pm (quoteJoin terms) qb)
    ∧ (∃ p s, buildNestedQuery pm (quoteJoin terms) qb = p ++ (quoteJoin terms ++ s))
    ∧ (∀ t ∈ terms, ∃ p s,
        buildNestedQuery pm (quoteJoin terms) qb = p ++ (("'" ++ t ++ "'") ++ s))
    ∧ (∃ p, buildNestedQuery pm (quoteJoin terms) qb
        = p ++ ("| project " ++ commaJoin pm.projections)) := by
  refine ⟨?_, ?_, ?_, ?_⟩
  · simp [processEntry, hq, hm]
  · exact ⟨_, _, buildNestedQuery_decomp pm (quoteJoin terms) qb⟩
  · intro t ht
    have hmem : ("'" ++ t ++ "'") ∈ terms.map (fun term => "'" ++ term ++ "'") :=
      List.mem_map_of_mem _ ht
    obtain ⟨p, s, hp⟩ := commaJoin_mem _ _ hmem
    refine ⟨(pm.table ++ " " ++ "| where " ++ pm.field ++ " has_any (") ++ p,
      s ++ (")" ++ " "
        ++ (match pm.additional with | some a => a | none => "")
        ++ " " ++ qb ++ " | project " ++ commaJoin pm.projections), ?_⟩
    rw [buildNestedQuery_decomp]
    unfold quoteJoin
    rw [hp]
    simp only [String.append_assoc]
  · refine ⟨pm.table ++ " " ++ "| where " ++ pm.field ++ " has_any ("
      ++ quoteJoin terms ++ ")" ++ " "
      ++ (match pm.additional with | some a => a | none => "")
      ++ " " ++ qb ++ " ", ?_⟩
    have hsp : (" | project " : String) = " " ++ "| project " := by decide
    rw [buildNestedQuery_decomp, hsp]
    simp only [String.append_assoc]

/-- Witness for C4 at the field `process_name` with terms `["evil.exe"]`. -/
theorem mapped_field_query_shape_witness :
    processEntry "t" "" [] "process_name" (CriteriaValue.strings ["evil.exe"])
      = process_search "t" []
          (buildNestedQuery
            ⟨"DeviceProcessEvents", "FolderPath", none,
              ["DeviceName", "AccountName", "FolderPath", "ProcessCommandLine"]⟩
            (quoteJoin ["evil.exe"]) "") :=
  (mapped_field_query_shape "t" "" [] "process_name"
    ⟨"DeviceProcessEvents", "FolderPath", none,
      ["DeviceName", "AccountName", "FolderPath", "ProcessCommandLine"]⟩
    ["evil.exe"] (by rfl) (by decide) (by decide)).1

lemma searchLoop_interrupt (tag qb : String) (bq : Filters) :
    ∀ (criteria : List (String × CriteriaValue)) (k : Nat), k < criteria.length →
      searchLoop tag qb bq (some k) criteria
        = searchLoop tag qb bq none (criteria.take k)
          ++ [Event.echo "Caught CTRL-C. Returning what we have..."] := by
  intro criteria
  induction criteria with
  | nil => intro k hk; simp at hk
  | cons e rest ih =>
      obtain ⟨f, v⟩ := e
      intro k hk
      match k with
      | 0 => simp [searchLoop]
      | k + 1 =>
          have hk' : k < rest.length := by simpa using hk
          rw [searchLoop, ih k hk', List.take_succ_cons, searchLoop, List.append_assoc]

lemma collectResults_interrupt :
    ∀ (rows : List Row) (k : Nat) (acc : List Result), k < rows.length →
      collectResults acc (some k) rows
        = ((collectResults acc none (rows.take k)).1, ["Caught CTRL-C. Rerun surveyor"]) := by
  intro rows
  induction rows with
  | nil => intro k acc hk; simp at hk
  | cons row rest ih =>
      intro k acc hk
      match k with
      | 0 => simp [collectResults]
      | k + 1 =>
          have hk' : k < rest.length := by simpa using hk
          rw [List.take_succ_cons, collectResults, collectResults]
          exact ih k _ hk'

/-- C8: a user-initiated interruption is caught, never propagated: if
CTRL-C arrives at the start of criteria iteration `k`,
`nested_process_search` processes exactly the first `k` entries as in an
uninterrupted run, echoes the abort message, and still invokes the sink
(with the results collected so far, which the code keeps empty);
likewise `_post_advanced_query` interrupted at row `k` reports the
interrupt diagnostic and returns exactly the results collected from the
first `k` rows. -/
theorem interruption_caught_partial_results :
    (∀ (tag qb : String) (bq : Filters) (criteria : List (String × CriteriaValue)) (k : Nat),
        k < criteria.length →
        searchLoop tag qb bq (some k) criteria
          = searchLoop tag qb bq none (criteria.take k)
            ++ [Event.echo "Caught CTRL-C. Returning what we have..."])
    ∧ (∀ (tag : String) (criteria : List (String × CriteriaValue)) (bq : Filters) (k : Nat),
        sinkCalls (nested_process_search tag criteria bq (some k)) = [(tag, [])])
    ∧ (∀ (body : String) (rows : List Row) (k : Nat), k < rows.length →
        post_advanced_query 200 body rows (some k)
          = ((post_advanced_query 200 body (rows.take k) none).1,
             ["Caught CTRL-C. Rerun surveyor"])) := by
  refine ⟨fun tag qb bq criteria k hk => searchLoop_interrupt tag qb bq criteria k hk,
    fun tag criteria bq k => ?_, fun body rows k hk => ?_⟩
  · have h : nested_process_search tag criteria bq (some k)
        = ((build_query bq).2.map Event.echo)
          ++ searchLoop tag (build_query bq).1 bq (some k) criteria
          ++ [Event.addResults tag []] := rfl
    rw [h, sinkCalls_append, sinkCalls_append, sinkCalls_echoList, sinkCalls_searchLoop]
    rfl
  · simpa [post_advanced_query] using collectResults_interrupt rows k [] hk

/-- Witness for C8: interruption at the start of the first of two
criteria entries processes none of them and echoes the abort message;
interruption at the first of one response row returns no results and
echoes the interrupt diagnostic. -/
theorem interruption_caught_partial_results_witness :
    (searchLoop "t" "" [] (some 0)
        [("process_name", CriteriaValue.strings ["a"]), ("md5", CriteriaValue.strings ["b"])]
      = searchLoop "t" "" [] none
          ([("process_name", CriteriaValue.strings ["a"]),
            ("md5", CriteriaValue.strings ["b"])].take 0)
        ++ [Event.echo "Caught CTRL-C. Returning what we have..."])
    ∧ post_advanced_query 200 "body" [⟨"d", "a", "c", "f", "ts"⟩] (some 0)
        = ((post_advanced_query 200 "body" ([⟨"d", "a", "c", "f", "ts"⟩].take 0) none).1,
           ["Caught CTRL-C. Rerun surveyor"]) :=
  ⟨interruption_caught_partial_results.1 "t" "" []
    [("process_name", CriteriaValue.strings ["a"]), ("md5", CriteriaValue.strings ["b"])]
    0 (by decide),
   interruption_caught_partial_results.2.2 "body" [⟨"d", "a", "c", "f", "ts"⟩] 0 (by decide)⟩

/-- C9: fatal configuration errors are raised before any query executes:
a nonexistent credential file path raises ValueError in the constructor;
a missing profile section, or a profile lacking any of tenantId, appId,
appSecret, raises ValueError during the authentication performed at
construction; with an existing file and a complete profile, construction
succeeds. -/
theorem config_errors_fail_fast :
    (∀ (credsFile profile : String) (config : CredsConfig),
        dfe_init false credsFile profile config
          = .error ("Credential file " ++ credsFile ++ " does not exist"))
    ∧ (∀ (credsFile profile : String) (config : CredsConfig),
        config.find? (fun p => p.1 == profile) = none →
        dfe_init true credsFile profile config
          = .error ("Profile " ++ profile ++ " is not present in credential file"))
    ∧ (∀ (credsFile profile : String) (config : CredsConfig) (prof : String)
          (sec : List (String × String)),
        config.find? (fun p => p.1 == profile) = some (prof, sec) →
        (hasOption sec "tenantId" = false ∨ hasOption sec "appId" = false
          ∨ hasOption sec "appSecret" = false) →
        dfe_init true credsFile profile config
          = .error "Credential file must contain tenantId, appId, and appSecret values")
    ∧ (∀ (credsFile profile : String) (config : CredsConfig) (prof : String)
          (sec : List (String × String)),
        config.find? (fun p => p.1 == profile) = some (prof, sec) →
        hasOption sec "tenantId" = true → hasOption sec "appId" = true →
        hasOption sec "appSecret" = true →
        dfe_init true credsFile profile config = .ok ()) := by
  refine ⟨fun credsFile profile config => rfl,
    fun credsFile profile config h => ?_,
    fun credsFile profile config prof sec h hmiss => ?_,
    fun credsFile profile config prof sec h h1 h2 h3 => ?_⟩
  · simp [dfe_init, _authenticate, h]
  · rcases hmiss with hm | hm | hm <;> simp [dfe_init, _authenticate, h, hm]
  · simp [dfe_init, _authenticate, h, h1, h2, h3]

/-- Witness for C9: a profile missing appSecret is rejected, a complete
profile is accepted, and a missing profile is rejected. -/
theorem config_errors_fail_fast_witness :
    dfe_init true "creds.ini" "default" []
      = .error ("Profile " ++ "default" ++ " is not present in credential file")
    ∧ dfe_init true "creds.ini" "default"
        [("default", [("tenantId", "t"), ("appId", "a")])]
      = .error "Credential file must contain tenantId, appId, and appSecret values"
    ∧ dfe_init true "creds.ini" "default"
        [("default", [("tenantId", "t"), ("appId", "a"), ("appSecret", "s")])]
      = .ok () :=
  ⟨config_errors_fail_fast.2.1 "creds.ini" "default" [] (by rfl),
   config_errors_fail_fast.2.2.1 "creds.ini" "default"
     [("default", [("tenantId", "t"), ("appId", "a")])] "default"
     [("tenantId", "t"), ("appId", "a")] (by rfl) (Or.inr (Or.inr (by rfl))),
   config_errors_fail_fast.2.2.2 "creds.ini" "default"
     [("default", [("tenantId", "t"), ("appId", "a"), ("appSecret", "s")])] "default"
     [("tenantId", "t"), ("appId", "a"), ("appSecret", "s")] (by rfl) (by rfl) (by rfl) (by rfl)⟩

end DFE
